import Mathlib

/-!
# Verification of the RegulAIte answer-orchestration pipeline

Shallow embedding of the repository `rajsinghpukli/regulaite-app1`
(files `src/rag/schema.py`, `src/rag/pipeline.py`, `src/rag/websearch.py`)
in Lean 4, together with theorems settling the frozen claims about the
natural-language specification of that code.

Python strings are modelled as `List Char` (`PyStr`); all string helpers
below mirror the exact Python operations used by the source
(`str.strip`, `in`, `str.replace`, slicing, `re` patterns used by the
pipeline).  Machinery that can raise in Python (pydantic validation,
attribute access on missing model fields, the completion endpoint) is
modelled with `Except PyExn`.
-/

/-- Python strings, modelled as lists of characters. -/
abbrev PyStr := List Char

/-- Convert a Lean string literal to the `PyStr` model. -/
def pyS (s : String) : PyStr := s.data

/-- Characters stripped by Python `str.strip()` (ASCII whitespace). -/
def isPySpace (c : Char) : Bool :=
  c = ' ' || c = '\t' || c = '\n' || c = '\x0d' || c = '\x0b' || c = '\x0c'

/-- Python `s.strip()`. -/
def pyStrip (s : PyStr) : PyStr :=
  ((s.dropWhile isPySpace).reverse.dropWhile isPySpace).reverse

/-- Python `s.lstrip()`-like helper used for fence stripping. -/
def pyDropEndWhile (p : Char → Bool) (s : PyStr) : PyStr :=
  (s.reverse.dropWhile p).reverse

/-- Python substring test `needle in hay`. -/
def pyContains (needle hay : PyStr) : Bool :=
  hay.tails.any (fun t => needle.isPrefixOf t)

/-- One-pass replacement of every occurrence of `needle` (assumed nonempty),
left to right, as Python `str.replace`.  Structural on the fuel. -/
def pyReplaceGo (needle repl : PyStr) : Nat → PyStr → PyStr
  | 0, s => s
  | _ + 1, [] => []
  | fuel + 1, c :: rest =>
    if needle.isPrefixOf (c :: rest) then
      repl ++ pyReplaceGo needle repl fuel ((c :: rest).drop needle.length)
    else
      c :: pyReplaceGo needle repl fuel rest

/-- Python `hay.replace(needle, repl)` (for nonempty `needle`). -/
def pyReplace (hay needle repl : PyStr) : PyStr :=
  match needle with
  | [] => hay
  | _ :: _ => pyReplaceGo needle repl (hay.length + 1) hay

/-- Python `s.lower()` (ASCII case fold, which is all the pipeline needs). -/
def pyLower (s : PyStr) : PyStr := s.map Char.toLower

/-- Python truthiness of a string: nonempty. -/
def pyTruthy (s : PyStr) : Bool := !s.isEmpty

/-- Python `a or b` on strings: `b` when `a` is falsy (empty). -/
def pyOrStr (a b : PyStr) : PyStr := if a.isEmpty then b else a

/-- Python `opt or b` where `opt` is an optional string (`None` is falsy). -/
def pyOrOpt (a : Option PyStr) (b : PyStr) : PyStr :=
  match a with
  | none => b
  | some s => pyOrStr s b

/-- Exceptions the embedded pipeline can raise, mirroring the Python
exception classes that actually occur in the modelled paths. -/
inductive PyExn where
  /-- pydantic `ValidationError` (missing required field / bad type). -/
  | validationError : PyExn
  /-- `AttributeError`: reading an attribute the object does not define. -/
  | attributeError (field : PyStr) : PyExn
  /-- `ValueError`: assigning to a field a pydantic model does not define. -/
  | valueError (field : PyStr) : PyExn
  /-- Any exception escaping the completion endpoint (network, rate limit…). -/
  | endpoint (msg : PyStr) : PyExn
  deriving DecidableEq

/-! ## `src/rag/schema.py` -/

/-- `RegSource = Literal["IFRS", "AAOIFI", "CBB", "InternalPolicy"]`. -/
inductive RegSource where
  | IFRS
  | AAOIFI
  | CBB
  | InternalPolicy
  deriving DecidableEq

/-- Rendering of a framework key, as it appears in section headers. -/
def RegSource.name : RegSource → PyStr
  | .IFRS => pyS "IFRS"
  | .AAOIFI => pyS "AAOIFI"
  | .CBB => pyS "CBB"
  | .InternalPolicy => pyS "InternalPolicy"

/-- `class Quote(BaseModel)` from `schema.py`. -/
structure Quote where
  framework : RegSource
  snippet : PyStr
  citation : Option PyStr
  deriving DecidableEq

/-- `class PerSourceAnswer(BaseModel)` from `schema.py`. -/
structure PerSourceAnswer where
  notes : Option PyStr
  quotes : List Quote
  deriving DecidableEq

/-- `class RegulAIteAnswer(BaseModel)` from `schema.py`: `summary` is the
only required field; there is **no** `raw_markdown` field.  The
`per_source` mapping is modelled as an association list over the four
framework keys. -/
structure RegulAIteAnswer where
  summary : PyStr
  per_source : List (RegSource × PerSourceAnswer) := []
  comparative_analysis : PyStr := []
  recommendation : PyStr := []
  general_knowledge : PyStr := []
  gaps_or_next_steps : PyStr := []
  citations : List PyStr := []
  ai_opinion : PyStr := []
  follow_up_suggestions : List PyStr := []
  comparison_table_md : Option PyStr := none
  deriving DecidableEq

/-- `self.per_source.get(fw)`: association-list lookup. -/
def perSourceGet (m : List (RegSource × PerSourceAnswer)) (fw : RegSource) :
    Option PerSourceAnswer :=
  match m.find? (fun p => p.1 = fw) with
  | none => none
  | some p => some p.2

/-- One quote line `> {snippet}{cite}` with `cite = " — {citation}"`
when the citation is truthy (`as_markdown`, schema.py lines 48–50). -/
def quoteLine (q : Quote) : PyStr :=
  let cite :=
    match q.citation with
    | none => []
    | some c => if c.isEmpty then [] else pyS " — " ++ c
  pyS "> " ++ q.snippet ++ cite

/-- The `### Summary` part of `as_markdown` (emitted when `summary` is
truthy). -/
def summaryPart (a : RegulAIteAnswer) : List PyStr :=
  if pyTruthy a.summary then [pyS "### Summary", pyStrip a.summary, []] else []

/-- One framework block of `as_markdown`'s loop body: header, optional
notes, optional evidence lines, and the trailing empty part.  A framework
absent from `per_source` contributes nothing (`if not ps: continue`;
a present pydantic model is always truthy). -/
def fwBlock (a : RegulAIteAnswer) (fw : RegSource) : List PyStr :=
  match perSourceGet a.per_source fw with
  | none => []
  | some ps =>
    let sec := [pyS "### " ++ fw.name]
    let sec := sec ++
      (match ps.notes with
       | none => []
       | some n => if n.isEmpty then [] else [pyStrip n])
    let sec := sec ++
      (if ps.quotes.isEmpty then []
       else [[], pyS "**Evidence (2–5 quotes):**"] ++ ps.quotes.map quoteLine)
    sec ++ [[]]

/-- The fixed iteration order of `as_markdown`'s framework loop. -/
def fwOrder : List RegSource := [.IFRS, .AAOIFI, .CBB, .InternalPolicy]

/-- All framework blocks in loop order. -/
def fwBlocks (a : RegulAIteAnswer) : List PyStr :=
  (fwOrder.map (fwBlock a)).flatten

/-- A `### Header` + stripped-body + blank section for a truthy string
field (`as_markdown`, schema.py lines 53–65). -/
def strSection (header : String) (v : PyStr) : List PyStr :=
  if pyTruthy v then [pyS header, pyStrip v, []] else []

/-- The `### Comparison` part (emitted when `comparison_table_md` is truthy). -/
def comparisonPart (a : RegulAIteAnswer) : List PyStr :=
  match a.comparison_table_md with
  | none => []
  | some t => strSection "### Comparison" t

/-- The `### Citations` part (emitted when `citations` is nonempty). -/
def citationsPart (a : RegulAIteAnswer) : List PyStr :=
  if a.citations.isEmpty then []
  else [pyS "### Citations"] ++ a.citations.map (fun c => pyS "- " ++ c) ++ [[]]

/-- Python `"\n".join(parts)`. -/
def joinNL (parts : List PyStr) : PyStr :=
  match parts with
  | [] => []
  | p :: rest => rest.foldl (fun acc q => acc ++ '\n' :: q) p

/-- `RegulAIteAnswer.as_markdown` (schema.py lines 29–72), translated with
the same imperative accumulation order as the source: summary, the four
framework blocks, comparison table, comparative analysis, recommendation,
general knowledge, gaps / next steps, AI opinion, citations; joined with
newlines and stripped. -/
def as_markdown (a : RegulAIteAnswer) : PyStr :=
  let parts : List PyStr := []
  let parts := parts ++ summaryPart a
  let parts := parts ++ fwBlocks a
  let parts := parts ++ comparisonPart a
  let parts := parts ++ strSection "### Comparative analysis" a.comparative_analysis
  let parts := parts ++ strSection "### Recommendation" a.recommendation
  let parts := parts ++ strSection "### General knowledge" a.general_knowledge
  let parts := parts ++ strSection "### Gaps / Next steps" a.gaps_or_next_steps
  let parts := parts ++ strSection "### AI opinion" a.ai_opinion
  let parts := parts ++ citationsPart a
  pyStrip (joinNL parts)

/-- `DEFAULT_EMPTY` (schema.py lines 74–77): summary text only, all other
fields at their declared defaults — in particular
`follow_up_suggestions = []`. -/
def DEFAULT_EMPTY : RegulAIteAnswer :=
  { summary := pyS "No answer was produced.", per_source := [] }

/-! ## Mode budgets and unescaping (`src/rag/pipeline.py` helpers) -/

/-- `_mode_tokens` (pipeline.py lines 51–52): the per-mode output token
budget, `{"short": 900, "long": 2600, "research": 3600}.get(mode, 2200)`. -/
def mode_tokens (mode : PyStr) : Nat :=
  if mode = pyS "short" then 900
  else if mode = pyS "long" then 2600
  else if mode = pyS "research" then 3600
  else 2200

/-- Characters matched by `[a-zA-Z0-9_-]` (the optional fence language tag). -/
def isFenceTagChar (c : Char) : Bool :=
  (('a' ≤ c && c ≤ 'z') || ('A' ≤ c && c ≤ 'Z') || ('0' ≤ c && c ≤ '9')
    || c = '_' || c = '-')

/-- Drop the last `n` characters. -/
def pyDropEnd (n : Nat) (s : PyStr) : PyStr := s.take (s.length - n)

/-- `_strip_code_fences` (pipeline.py lines 26–31): strip, remove a
leading ```` ```lang ```` fence (with its language tag and following
whitespace) and a trailing ```` ``` ```` fence (with the whitespace before
it), then strip again. -/
def strip_code_fences (s : PyStr) : PyStr :=
  let s := pyStrip s
  let s :=
    if (pyS "```").isPrefixOf s then
      let s1 := ((s.drop 3).dropWhile isFenceTagChar).dropWhile isPySpace
      if (pyS "```").isSuffixOf s1 then pyDropEndWhile isPySpace (pyDropEnd 3 s1)
      else s1
    else s
  pyStrip s

/-- `_unescape_field` (pipeline.py lines 54–58) on a string value: replace
literal `\n` escapes by real newlines only when the string has a literal
`\n` and no real newline, then strip code fences and whitespace.  (A
non-string value is returned unchanged by the source; callers below only
apply this to strings.) -/
def unescape_field (v : PyStr) : PyStr :=
  let v :=
    if pyContains (pyS "\\n") v && !pyContains (pyS "\n") v then
      pyReplace v (pyS "\\n") (pyS "\n")
    else v
  pyStrip (strip_code_fences v)

/-! ## Claims about the renderer and the helpers (C2, C4, C6, C7) -/

/-- The Answer used by claim C4's counterexample: summary, one CBB
per-source block, a recommendation, a comparison table, and one citation. -/
def answerC4 : RegulAIteAnswer :=
  { summary := pyS "S"
    per_source := [(.CBB, { notes := some (pyS "N"), quotes := [] })]
    recommendation := pyS "R"
    citations := [pyS "c1"]
    comparison_table_md := some (pyS "|t|") }

/-- The renderer order asserted by claim C4, written from the spec's words
for comparison with `as_markdown`: narrative body first, then the
comparison table, then the per-source evidence blocks in framework order,
then the citations list, and nothing else. -/
def as_markdown_claim_order (a : RegulAIteAnswer) : PyStr :=
  pyStrip (joinNL (summaryPart a ++ comparisonPart a ++ fwBlocks a ++ citationsPart a))

/-- C4 (counterexample): on a concrete Answer holding a per-source block,
a comparison table and a recommendation, `as_markdown` does **not** emit
the order claimed by the spec (narrative → comparison table → per-source →
citations and nothing else): the comparison table is rendered *after* the
per-source blocks, and a `### Recommendation` section is also emitted. -/
theorem C4_renderer_order_cex :
    as_markdown answerC4 ≠ as_markdown_claim_order answerC4 := by decide

/-- C4 (amended): `as_markdown` emits sections in the deterministic source
order — summary, per-source framework blocks (IFRS, AAOIFI, CBB,
InternalPolicy), comparison table, comparative analysis, recommendation,
general knowledge, gaps / next steps, AI opinion, citations — omitting
every string section that is empty and every framework key that is absent. -/
theorem C4_renderer_order (a : RegulAIteAnswer) :
    as_markdown a =
      pyStrip (joinNL (summaryPart a ++ fwBlocks a ++ comparisonPart a ++
        strSection "### Comparative analysis" a.comparative_analysis ++
        strSection "### Recommendation" a.recommendation ++
        strSection "### General knowledge" a.general_knowledge ++
        strSection "### Gaps / Next steps" a.gaps_or_next_steps ++
        strSection "### AI opinion" a.ai_opinion ++
        citationsPart a)) := by
  simp [as_markdown, List.append_assoc]

/-- C2 (counterexample): the terminal `EMPTY_ANSWER` sentinel
(`DEFAULT_EMPTY`) does **not** have `follow_up_suggestions` of length at
least 1 — its list is empty, so the claimed invariant fails exactly where
the claim says defaults are injected. -/
theorem C2_followups_cex :
    ¬ (1 ≤ DEFAULT_EMPTY.follow_up_suggestions.length) := by decide

/-- C2 (amended): `follow_up_suggestions` defaults to the empty list and no
deterministic defaults are injected anywhere in the pipeline; in
particular the terminal `EMPTY_ANSWER` sentinel `DEFAULT_EMPTY` has an
empty `follow_up_suggestions` list. -/
theorem C2_default_empty_followups :
    DEFAULT_EMPTY.follow_up_suggestions = [] := rfl

/-- C7: the per-mode output token budget of `_mode_tokens` is monotonic —
the `research` budget (3600) is at least the `long` budget (2600), which
is at least the `short` budget (900). -/
theorem C7_mode_budget_monotonic :
    mode_tokens (pyS "short") ≤ mode_tokens (pyS "long") ∧
    mode_tokens (pyS "long") ≤ mode_tokens (pyS "research") := by decide

/-- C6 (counterexample): the newline-unescape step is **not** idempotent.
The string `"\na\n b\n"` (with a literal backslash-n escape *and* a real
newline) is left with its escape by one application — the output
`"a\n b"` (escape intact, real newlines stripped away) — and a second
application then rewrites the escape, changing the string. -/
theorem C6_unescape_not_idempotent :
    unescape_field (unescape_field (pyS "\na\\n b\n")) ≠
      unescape_field (pyS "\na\\n b\n") := by decide

/-- C6 (amended): the unescape step is a no-op on an already-clean string
`s` provided `s` contains a real newline or no literal `\n` escape, does
not begin with a code fence, and is already whitespace-stripped; without
these provisos idempotence fails (see the counterexample: one
application's output can retain a literal `\n` escape with no real
newline, which a second application rewrites). -/
theorem C6_unescape_idempotent_cond (s : PyStr)
    (h1 : pyContains (pyS "\n") s = true ∨ pyContains (pyS "\\n") s = false)
    (h2 : (pyS "```").isPrefixOf s = false)
    (h3 : pyStrip s = s) :
    unescape_field s = s := by
  have hcond : (pyContains (pyS "\\n") s && !pyContains (pyS "\n") s) = false := by
    rcases h1 with h | h <;> simp [h]
  simp [unescape_field, strip_code_fences, hcond, h3, h2]

/-- C6 (witness): the conditional idempotence theorem applies to the
concrete already-clean string `"a\nb"`. -/
theorem C6_unescape_idempotent_cond_witness :
    (pyContains (pyS "\n") (pyS "a\nb") = true ∨
      pyContains (pyS "\\n") (pyS "a\nb") = false) ∧
    (pyS "```").isPrefixOf (pyS "a\nb") = false ∧
    pyStrip (pyS "a\nb") = pyS "a\nb" ∧
    unescape_field (pyS "a\nb") = pyS "a\nb" :=
  ⟨Or.inl (by decide), by decide, by decide,
    C6_unescape_idempotent_cond (pyS "a\nb") (Or.inl (by decide)) (by decide)
      (by decide)⟩

/-! ## JSON parsing (`_parse_json`, pipeline.py lines 33–49)

A model of `json.loads` over `PyStr`, written with structural fuel so
every run reduces inside the kernel.  Numbers are kept as lexemes (the
model accepts a superset of JSON number syntax — leading zeros — which
none of the claims depend on); strings reject raw control characters and
understand the standard escapes, as the strict `json.loads` does. -/

/-- JSON values. -/
inductive PyJson where
  | jnull
  | jbool (b : Bool)
  | jnum (lexeme : PyStr)
  | jstr (s : PyStr)
  | jarr (xs : List PyJson)
  | jobj (fields : List (PyStr × PyJson))

/-- JSON inter-token whitespace. -/
def skipWs (s : PyStr) : PyStr := s.dropWhile isPySpace

/-- Value of one hexadecimal digit (code-point arithmetic). -/
def hexDigitVal (c : Char) : Option Nat :=
  let n := c.toNat
  if 48 ≤ n && n ≤ 57 then some (n - 48)
  else if 65 ≤ n && n ≤ 70 then some (n - 55)
  else if 97 ≤ n && n ≤ 102 then some (n - 87)
  else none

/-- Parse the body of a JSON string (the opening quote already consumed),
returning the decoded string and the rest of the input. -/
def parseJStr : Nat → PyStr → Option (PyStr × PyStr)
  | 0, _ => none
  | _ + 1, [] => none
  | fuel + 1, c :: rest =>
    if c = '"' then some ([], rest)
    else if c = '\\' then
      match rest with
      | [] => none
      | e :: rest2 =>
        let esc : Option (Char × PyStr) :=
          if e = '"' then some ('"', rest2)
          else if e = '\\' then some ('\\', rest2)
          else if e = '/' then some ('/', rest2)
          else if e = 'b' then some ('\x08', rest2)
          else if e = 'f' then some ('\x0c', rest2)
          else if e = 'n' then some ('\n', rest2)
          else if e = 'r' then some ('\x0d', rest2)
          else if e = 't' then some ('\t', rest2)
          else if e = 'u' then
            match rest2 with
            | h1 :: h2 :: h3 :: h4 :: rest3 =>
              match hexDigitVal h1, hexDigitVal h2, hexDigitVal h3, hexDigitVal h4 with
              | some a, some b, some c2, some d =>
                some (Char.ofNat (((a * 16 + b) * 16 + c2) * 16 + d), rest3)
              | _, _, _, _ => none
            | _ => none
          else none
        match esc with
        | none => none
        | some (ch, r) =>
          match parseJStr fuel r with
          | none => none
          | some (str, r2) => some (ch :: str, r2)
    else if c.toNat < 32 then none
    else
      match parseJStr fuel rest with
      | none => none
      | some (str, r2) => some (c :: str, r2)

/-- ASCII digit test. -/
def isDigitChar (c : Char) : Bool := '0' ≤ c && c ≤ '9'

/-- Parse a JSON number, kept as its lexeme. -/
def parseJNum (s : PyStr) : Option (PyJson × PyStr) :=
  let (sign, s1) :=
    match s with
    | '-' :: r => ([('-' : Char)], r)
    | _ => (([] : PyStr), s)
  let int := s1.takeWhile isDigitChar
  let s2 := s1.dropWhile isDigitChar
  if int.isEmpty then none
  else
    let (frac, s3) :=
      match s2 with
      | '.' :: r =>
        let d := r.takeWhile isDigitChar
        if d.isEmpty then (([] : PyStr), s2) else ('.' :: d, r.dropWhile isDigitChar)
      | _ => (([] : PyStr), s2)
    let (expo, s4) :=
      match s3 with
      | e :: r =>
        if e = 'e' || e = 'E' then
          let (esign, r1) :=
            match r with
            | c :: r2 => if c = '+' || c = '-' then ([c], r2) else (([] : PyStr), r)
            | [] => (([] : PyStr), r)
          let d := r1.takeWhile isDigitChar
          if d.isEmpty then (([] : PyStr), s3)
          else (e :: esign ++ d, r1.dropWhile isDigitChar)
        else (([] : PyStr), s3)
      | [] => (([] : PyStr), s3)
    some (.jnum (sign ++ int ++ frac ++ expo), s4)

mutual

/-- Parse one JSON value at the head of the input (no leading whitespace). -/
def parseJValue : Nat → PyStr → Option (PyJson × PyStr)
  | 0, _ => none
  | fuel + 1, s =>
    match s with
    | '{' :: rest =>
      (match skipWs rest with
       | '}' :: r => some (.jobj [], r)
       | s2 =>
         match parseJMembers fuel s2 with
         | none => none
         | some (flds, r) => some (.jobj flds, r))
    | '[' :: rest =>
      (match skipWs rest with
       | ']' :: r => some (.jarr [], r)
       | s2 =>
         match parseJElems fuel s2 with
         | none => none
         | some (xs, r) => some (.jarr xs, r))
    | '"' :: rest =>
      (match parseJStr (rest.length + 1) rest with
       | none => none
       | some (str, r) => some (.jstr str, r))
    | 't' :: 'r' :: 'u' :: 'e' :: rest => some (.jbool true, rest)
    | 'f' :: 'a' :: 'l' :: 's' :: 'e' :: rest => some (.jbool false, rest)
    | 'n' :: 'u' :: 'l' :: 'l' :: rest => some (.jnull, rest)
    | _ => parseJNum s

/-- Parse the members of a JSON object after `{` (at a key position). -/
def parseJMembers : Nat → PyStr → Option (List (PyStr × PyJson) × PyStr)
  | 0, _ => none
  | fuel + 1, s =>
    match s with
    | '"' :: rest =>
      (match parseJStr (rest.length + 1) rest with
       | none => none
       | some (key, r1) =>
         match skipWs r1 with
         | ':' :: r2 =>
           (match parseJValue fuel (skipWs r2) with
            | none => none
            | some (v, r3) =>
              match skipWs r3 with
              | ',' :: r4 =>
                (match parseJMembers fuel (skipWs r4) with
                 | none => none
                 | some (flds, r5) => some ((key, v) :: flds, r5))
              | '}' :: r4 => some ([(key, v)], r4)
              | _ => none)
         | _ => none)
    | _ => none

/-- Parse the elements of a JSON array after `[` (at a value position). -/
def parseJElems : Nat → PyStr → Option (List PyJson × PyStr)
  | 0, _ => none
  | fuel + 1, s =>
    match parseJValue fuel s with
    | none => none
    | some (v, r1) =>
      match skipWs r1 with
      | ',' :: r2 =>
        (match parseJElems fuel (skipWs r2) with
         | none => none
         | some (xs, r) => some (v :: xs, r))
      | ']' :: r2 => some ([v], r2)
      | _ => none

end

/-- `json.loads`: parse a complete JSON document (surrounding whitespace
allowed, nothing else before or after). -/
def jsonParse (s : PyStr) : Option PyJson :=
  match parseJValue (s.length + 1) (skipWs s) with
  | some (v, rest) => if (skipWs rest).isEmpty then some v else none
  | none => none

/-- The span matched by `re.search(r"\{.*\}", text, re.DOTALL)`: greedy,
so from the first `{` to the last `}` (when the last `}` comes after the
first `{`; otherwise no match). -/
def extractBraceSpan (s : PyStr) : Option PyStr :=
  let i := s.indexOf '{'
  let rj := s.reverse.indexOf '}'
  if i < s.length && rj < s.length then
    let j := s.length - 1 - rj
    if i < j then some ((s.drop i).take (j - i + 1)) else none
  else none

/-- One left-to-right pass of `re.sub(r",\s*‹close›", "‹close›", s)`:
every comma followed by optional whitespace and `close` collapses to
`close`; scanning resumes after the replacement. -/
def subCommaClose (close : Char) : Nat → PyStr → PyStr
  | 0, s => s
  | _ + 1, [] => []
  | fuel + 1, c :: rest =>
    if c = ',' then
      match rest.dropWhile isPySpace with
      | c2 :: rest2 =>
        if c2 = close then close :: subCommaClose close fuel rest2
        else c :: subCommaClose close fuel rest
      | [] => c :: subCommaClose close fuel rest
    else c :: subCommaClose close fuel rest

/-- `re.sub(r",\s*‹close›", "‹close›", s)` with enough fuel. -/
def subCommaCloseAll (close : Char) (s : PyStr) : PyStr :=
  subCommaClose close (s.length + 1) s

/-- Index of the last `"` in `s` that is followed (after optional
whitespace) by `,` or `}` — the end chosen by the greedy `(.*)` of the
salvage pattern `"raw_markdown"\s*:\s*"(.*)"\s*(,|\})`. -/
def lastCloseIdx (s : PyStr) : Option Nat :=
  (List.range s.length).foldl
    (fun acc e =>
      if s.getD e ' ' = '"' &&
         (match (s.drop (e + 1)).dropWhile isPySpace with
          | c :: _ => c = ',' || c = '}'
          | [] => false) then
        some e
      else acc)
    none

/-- Try the salvage pattern anchored at index `i` (an occurrence of the
literal `"raw_markdown"`), returning the greedy capture group. -/
def salvageTryAt (s : PyStr) (i : Nat) : Option PyStr :=
  let afterKey := s.drop (i + (pyS "\"raw_markdown\"").length)
  match afterKey.dropWhile isPySpace with
  | ':' :: r1 =>
    (match r1.dropWhile isPySpace with
     | '"' :: body =>
       (match lastCloseIdx body with
        | some e => some (body.take e)
        | none => none)
     | _ => none)
  | _ => none

/-- `re.search` of the salvage pattern: the leftmost occurrence of
`"raw_markdown"` at which the rest of the pattern completes. -/
def salvageRawMarkdown (s : PyStr) : Option PyStr :=
  match (List.range (s.length + 1)).find?
      (fun i => (pyS "\"raw_markdown\"").isPrefixOf (s.drop i) &&
                (salvageTryAt s i).isSome) with
  | some i => salvageTryAt s i
  | none => none

/-- The salvage branch's unescaping:
`val.replace(r"\\n","\n").replace(r"\\t","\t").replace(r"\\\"","\"")`
(each raw-string pattern is a two-character backslash escape plus the
letter, i.e. the doubly-escaped forms). -/
def salvageUnescape (v : PyStr) : PyStr :=
  pyReplace
    (pyReplace (pyReplace v (pyS "\\\\n") (pyS "\n")) (pyS "\\\\t") (pyS "\t"))
    (pyS "\\\\\"") (pyS "\"")

/-- `_parse_json` (pipeline.py lines 33–49): strip fences, extract the
greedy `{…}` span, strictly parse it; on failure strip trailing commas
(`,\s*}` then `,\s*]`, globally) and reparse; on failure regex-salvage
just the `raw_markdown` string field; otherwise the empty dict. -/
def parse_json (text : PyStr) : List (PyStr × PyJson) :=
  if text.isEmpty then []
  else
    let text := strip_code_fences text
    match extractBraceSpan text with
    | none => []
    | some raw =>
      match jsonParse raw with
      | some (.jobj flds) => flds
      | some _ => []
      | none =>
        let raw2 := subCommaCloseAll ']' (subCommaCloseAll '}' raw)
        match jsonParse raw2 with
        | some (.jobj flds) => flds
        | _ =>
          match salvageRawMarkdown raw with
          | some val => [(pyS "raw_markdown", .jstr (salvageUnescape val))]
          | none => []

/-! ## Claim C8: the trailing-comma repair pass -/

/-- C8 (counterexample): the raw response `{"a": "x,}",}` is a JSON object
valid except for exactly one trailing comma before the closing brace (the
comma-free text parses, with field `a = "x,}"`), yet `_parse_json` does
not extract the fields of that object: the global `,\s*}` substitution
also rewrites the `,}` *inside the string value*, so the extracted field
is `a = "x}"`. -/
theorem C8_repair_cex :
    jsonParse (pyS "\x7b\"a\": \"x,\x7d\",\x7d") = none ∧
    jsonParse (pyS "\x7b\"a\": \"x,\x7d\"\x7d") =
      some (.jobj [(pyS "a", .jstr (pyS "x,\x7d"))]) ∧
    parse_json (pyS "\x7b\"a\": \"x,\x7d\",\x7d") =
      [(pyS "a", .jstr (pyS "x\x7d"))] :=
  ⟨rfl, rfl, rfl⟩

/-- C8 (amended): whenever the strict parse of the extracted `{…}` span
fails and the trailing-comma-stripped text (the global substitutions
`,\s*}` → `}` then `,\s*]` → `]`) parses as a JSON object, `_parse_json`
reaches the STRUCTURED outcome and returns exactly the fields of the
comma-stripped text — which are the fields of the original
almost-valid object only when no `,}`/`,]` pattern occurs inside its
string values (see the counterexample). -/
theorem C8_repair_reaches_structured (text raw : PyStr)
    (flds : List (PyStr × PyJson))
    (h0 : text.isEmpty = false)
    (h1 : extractBraceSpan (strip_code_fences text) = some raw)
    (h2 : jsonParse raw = none)
    (h3 : jsonParse (subCommaCloseAll ']' (subCommaCloseAll '}' raw)) =
      some (.jobj flds)) :
    parse_json text = flds := by
  simp [parse_json, h0, h1, h2, h3]

/-- C8 (witness): the repair theorem applies to the concrete input
`{"a": "x,}",}`. -/
theorem C8_repair_reaches_structured_witness :
    (pyS "\x7b\"a\": \"x,\x7d\",\x7d").isEmpty = false ∧
    extractBraceSpan (strip_code_fences (pyS "\x7b\"a\": \"x,\x7d\",\x7d")) =
      some (pyS "\x7b\"a\": \"x,\x7d\",\x7d") ∧
    jsonParse (pyS "\x7b\"a\": \"x,\x7d\",\x7d") = none ∧
    jsonParse (subCommaCloseAll ']'
        (subCommaCloseAll '}' (pyS "\x7b\"a\": \"x,\x7d\",\x7d"))) =
      some (.jobj [(pyS "a", .jstr (pyS "x\x7d"))]) ∧
    parse_json (pyS "\x7b\"a\": \"x,\x7d\",\x7d") =
      [(pyS "a", .jstr (pyS "x\x7d"))] :=
  ⟨rfl, rfl, rfl, rfl,
    C8_repair_reaches_structured (pyS "\x7b\"a\": \"x,\x7d\",\x7d")
      (pyS "\x7b\"a\": \"x,\x7d\",\x7d")
      [(pyS "a", .jstr (pyS "x\x7d"))] rfl rfl rfl rfl⟩

/-! ## `src/rag/websearch.py` (claim C9) -/

/-- A raw result record yielded by the DuckDuckGo provider, with the
optional keys the source probes (`title`, `href`, `url`, `body`,
`snippet`). -/
structure ProviderRec where
  title : Option PyStr := none
  href : Option PyStr := none
  url : Option PyStr := none
  body : Option PyStr := none
  snippet : Option PyStr := none

/-- The normalized record built by `_search`'s loop body. -/
structure WebRec where
  title : PyStr
  url : PyStr
  snippet : PyStr
  deriving DecidableEq

/-- One provider call: a text search for a query and a requested result
count, which may raise (transport/provider failure). -/
def WebOracle := PyStr → Nat → Except PyExn (List ProviderRec)

/-- The loop body of `_search` (websearch.py lines 16–20):
`title = r.get("title") or ""`, `url = r.get("href") or r.get("url") or ""`,
`snippet = (r.get("body") or r.get("snippet") or "")[:400]`. -/
def toWebRec (r : ProviderRec) : WebRec :=
  { title := pyOrOpt r.title []
    url := pyOrOpt r.href (pyOrOpt r.url [])
    snippet := (pyOrOpt r.body (pyOrOpt r.snippet [])).take 400 }

/-- The inner `_search` closure (websearch.py lines 10–23): run the
provider, normalize each record, and swallow **any** exception into the
empty list. -/
def webSearchInner (oracle : WebOracle) (q : PyStr) (n : Nat) : List WebRec :=
  match oracle q n with
  | .error _ => []
  | .ok rs => rs.map toWebRec

/-- `ddg_search` (websearch.py lines 5–38): first a generic attempt with
the requested count; if empty and the query implies BIS, one retry with a
`site:bis.org` prefix and `max_results + 5`; otherwise the empty list.
Total by construction — provider errors are absorbed by `webSearchInner`. -/
def ddg_search (oracle : WebOracle) (query : PyStr) (max_results : Nat) :
    List WebRec :=
  let res := webSearchInner oracle query max_results
  if !res.isEmpty then res
  else
    let ql := pyLower query
    if pyContains (pyS "bis.org") ql || pyContains (pyS "bis ") ql ||
       pyContains (pyS "bcbs") ql then
      let res2 := webSearchInner oracle (pyS "site:bis.org " ++ query)
        (max_results + 5)
      if !res2.isEmpty then res2 else []
    else []

/-- A provider that honors the requested result count: every successful
call returns at most the number of records asked for. -/
def HonorsCount (oracle : WebOracle) : Prop :=
  ∀ q n, match oracle q n with
    | .ok rs => rs.length ≤ n
    | .error _ => True

/-- The concrete provider of C9's counterexample: no results for generic
queries, two results for `site:bis.org`-scoped queries, truncated to the
requested count (so it honors every request). -/
def bisOracle : WebOracle := fun q n =>
  .ok ((if (pyS "site:bis.org").isPrefixOf q then
    [{ title := some (pyS "BIS page 1"), href := some (pyS "https://bis.org/1") },
     { title := some (pyS "BIS page 2"), href := some (pyS "https://bis.org/2") }]
    else ([] : List ProviderRec)).take n)

/-- `bisOracle` honors every requested result count. -/
theorem bisOracle_honors : HonorsCount bisOracle := by
  intro q n
  simp only [bisOracle]
  exact (List.length_take _ _).trans_le (min_le_left _ _)

/-- C9 (counterexample): with a provider that honors every requested
count, `ddg_search` for the query `"bcbs lcr"` with requested count 1
returns **2** records: the site-scoped retry asks for `max_results + 5`
results, so the returned list is not bounded by the requested count. -/
theorem C9_bounded_cex :
    HonorsCount bisOracle ∧
    1 < (ddg_search bisOracle (pyS "bcbs lcr") 1).length :=
  ⟨bisOracle_honors, by decide⟩

/-- C9 (amended): `ddg_search` never raises (it is total; every provider
failure is swallowed into `[]` by the inner `_search`), and with a
provider honoring the requested counts its result is bounded by
`max_results + 5` — the bound actually requested on the site-scoped
retry — not by `max_results` itself. -/
theorem C9_total_and_bounded (oracle : WebOracle) (query : PyStr)
    (max_results : Nat) (h : HonorsCount oracle) :
    (ddg_search oracle query max_results).length ≤ max_results + 5 := by
  have hb : ∀ q n, (webSearchInner oracle q n).length ≤ n := by
    intro q n
    have := h q n
    unfold webSearchInner
    cases hq : oracle q n with
    | error e => simp
    | ok rs => rw [hq] at this; simpa using this
  simp only [ddg_search]
  split
  · exact (hb query max_results).trans (Nat.le_add_right _ _)
  · split
    · split
      · exact hb _ _
      · simp
    · simp

/-- C9 (witness): the totality/bound theorem applies to the concrete
honoring provider `bisOracle` at requested count 1. -/
theorem C9_total_and_bounded_witness :
    HonorsCount bisOracle ∧
    (ddg_search bisOracle (pyS "bcbs lcr") 1).length ≤ 1 + 5 :=
  ⟨bisOracle_honors,
    C9_total_and_bounded bisOracle (pyS "bcbs lcr") 1 bisOracle_honors⟩
/-- `STYLE_GUIDE` (prompts.py lines 3–60), verbatim prompt copy. -/
def STYLE_GUIDE : PyStr :=
  pyS "\nYou are RegulAIte — an AI-powered compliance and policy assistant designed to analyze finance, accounting, regulatory and Shariah-related queries using authoritative documents:\n\n- IFRS Standards\n- AAOIFI Standards\n- CBB Regulations\n- International GAAP 2025 with EY comments\n- Internal Policies (Accounting, Balance Sheet Structure & Management, Dividend, Financial Control, Profit Distribution, VAT Manual)\n\nYour job is to return fully sourced, comparative answers that reflect how these frameworks govern the user’s query.\n\n-------------------------\n🧭 Answering Instructions:\n-------------------------\n\n1. Query Type Identification\n   - Summarize the user’s query in a few bullet points (reuse terms from the document repository).\n   - If the question is vague or cryptic, use that summary to invite the user to clarify (explain that missing context can lead to erroneous answers).\n   - When answering, first identify which frameworks (IFRS, AAOIFI, International GAAP 2025, CBB, Internal Policies) are predominantly relevant. If unclear, make a best-effort judgment and say so.\n\n2. Primary Source Search – Mandatory\n   Search all vectorized documents to retrieve relevant content.\n   For each relevant source, do the following:\n   - Clearly state whether the document addresses the query.\n   - Provide quoted snippets directly relevant to the query.\n   - Include the source name + paragraph/section/sub-section/clause number and the page number shown in the document.\n   - If not found, explicitly state: “No matching content found in [Source Name].”\n\n3. Comparative Regulatory Analysis\n   - Compare and contrast findings across sources.\n   - Highlight alignment, differences, and conflicts (e.g., IFRS / International GAAP vs AAOIFI on derecognition).\n   - If an illustration/example is found in International GAAP 2025 (EY), include it.\n   - Use bullets or a compact table where helpful.\n   - If the document shows a limit structure or similar as a table/image, don’t dump raw text—reconstruct a clean, well-structured table and then summarize that table in 2–3 bullets.\n\n4. Compliance Recommendation\n   - Advise how the organization should handle the issue.\n   - If conflicts exist, recommend which standard to follow (with justification).\n   - Note whether internal policy updates are required, and how.\n\n5. General Knowledge Support – Only Last\n   - Only after source-based reasoning, add helpful domain commentary.\n   - Prefix this section exactly with: “🔍 General Knowledge (not found in documents):”\n\n6. Clarity & User Guidance\n   - If part of the query is ambiguous or uncovered, invite the user to clarify.\n   - If some documents do not address the query, state this explicitly by name.\n   - Avoid “null” / “not applicable” phrasing; reword meaningfully.\n\n-------------------------\n🚫 Rules:\n-------------------------\n- Never skip citation for sourced material.\n- Never generate answers purely from general knowledge before using document sources.\n- Separate major sections with clear headers (e.g., “📘 IFRS 9 Analysis”).\n- No speculative or vague claims—back factual output with documents.\n- Do not paraphrase regulatory documents unless accompanied by a quote and citation.\n"

/-- `FEW_SHOT_EXAMPLE` (prompts.py lines 62–93), verbatim prompt copy. -/
def FEW_SHOT_EXAMPLE : PyStr :=
  pyS "\n# Few-shot behavior guide (for the assistant; not to be printed to the user)\n\n1) Quote-only / return-only ask\nUser: “Cite-only: According to CBB Vol 2, CM-5.3, provide the exact sentence that sets the connected-counterparty limit and give the section ID. Return only the quote and ID.”\nAssistant (correct): “The aggregate amount of exposures to connected counterparties must not exceed 15% of the bank’s capital base.” — CM-5.3.1\n(Notes: No extra prose, no headings. Pull line strictly from sources first.)\n\n2) IDs-only ask\nUser: “In CBB Vol 2, CM-5.2, list only the section IDs present (e.g., CM-5.2.1, CM-5.2.2). If you can’t, say ‘not found.’”\nAssistant (correct): “CM-5.2.1, CM-5.2.2, CM-5.2.3”\n(Or: “not found” if not in documents.)\n\n3) Comparative analysis ask (normal answer)\nUser: “What are CBB large-exposure disclosure requirements, and how do they compare with Basel (BIS)?”\nAssistant (outline):\n- “Query Summary” bullets\n- “Relevant Frameworks” (why)\n- “Primary Sources” with quotes + citations (CBB, BIS; state ‘not found’ for others)\n- “Comparative Analysis” (table or bullets)\n- “Compliance Recommendation”\n- “🔍 General Knowledge (not found in documents):” (optional, last)\n\n4) Scenario / board-ready ask\nUser: “Capital base BHD 240m… Deliver: exec summary (≤120 words), exposure calc table, pass/fail with exact CM-5.x cites, 3 controls + 4 KRIs.”\nAssistant (outline):\n- Exec summary (≤120 words)\n- Exposure table (show assumptions for off-balance-sheet if used)\n- CBB compliance test (verbatim clauses with IDs)\n- Controls + KRIs, succinct\n- Only include sections requested; still follow citations rules\n"


/-! ## pydantic construction and `_call_llm` (pipeline.py lines 76–93) -/

/-- The keyword arguments a `RegulAIteAnswer(...)` construction can
receive in the pipeline: every schema field, plus the extra
`raw_markdown` key the pipeline passes (which the model does **not**
declare — pydantic ignores unknown keys but still requires `summary`). -/
structure AnswerKwargs where
  summary : Option PyStr := none
  per_source : Option (List (RegSource × PerSourceAnswer)) := none
  comparative_analysis : Option PyStr := none
  recommendation : Option PyStr := none
  general_knowledge : Option PyStr := none
  gaps_or_next_steps : Option PyStr := none
  citations : Option (List PyStr) := none
  ai_opinion : Option PyStr := none
  follow_up_suggestions : Option (List PyStr) := none
  comparison_table_md : Option (Option PyStr) := none
  raw_markdown : Option PyStr := none

/-- pydantic construction `RegulAIteAnswer(**kwargs)`: the required
`summary` field must be supplied or a `ValidationError` is raised; every
other declared field falls back to its default; the undeclared
`raw_markdown` key is ignored. -/
def mkRegulAIteAnswer (kw : AnswerKwargs) : Except PyExn RegulAIteAnswer :=
  match kw.summary with
  | none => .error .validationError
  | some s =>
    .ok { summary := s
          per_source := kw.per_source.getD []
          comparative_analysis := kw.comparative_analysis.getD []
          recommendation := kw.recommendation.getD []
          general_knowledge := kw.general_knowledge.getD []
          gaps_or_next_steps := kw.gaps_or_next_steps.getD []
          citations := kw.citations.getD []
          ai_opinion := kw.ai_opinion.getD []
          follow_up_suggestions := kw.follow_up_suggestions.getD []
          comparison_table_md := kw.comparison_table_md.getD none }

/-- Python `dict.get` on a parsed JSON object (last occurrence wins, as
in `dict` construction). -/
def jDictGet (flds : List (PyStr × PyJson)) (key : PyStr) : Option PyJson :=
  match flds.reverse.find? (fun p => p.1 = key) with
  | some p => some p.2
  | none => none

/-- pydantic validation of a `str` field. -/
def vStr : PyJson → Except PyExn PyStr
  | .jstr s => .ok s
  | _ => .error .validationError

/-- pydantic validation of an `Optional[str]` field. -/
def vOptStr : PyJson → Except PyExn (Option PyStr)
  | .jnull => .ok none
  | .jstr s => .ok (some s)
  | _ => .error .validationError

/-- pydantic validation of a `List[str]` field. -/
def vStrList : PyJson → Except PyExn (List PyStr)
  | .jarr xs => xs.mapM vStr
  | _ => .error .validationError

/-- pydantic validation of the `RegSource` literal. -/
def vRegSource : PyJson → Except PyExn RegSource
  | .jstr s =>
    if s = pyS "IFRS" then .ok .IFRS
    else if s = pyS "AAOIFI" then .ok .AAOIFI
    else if s = pyS "CBB" then .ok .CBB
    else if s = pyS "InternalPolicy" then .ok .InternalPolicy
    else .error .validationError
  | _ => .error .validationError

/-- pydantic validation of a nested `Quote` object. -/
def vQuote : PyJson → Except PyExn Quote
  | .jobj flds => do
    let fw ←
      match jDictGet flds (pyS "framework") with
      | some v => vRegSource v
      | none => .error .validationError
    let sn ←
      match jDictGet flds (pyS "snippet") with
      | some v => vStr v
      | none => .error .validationError
    let ci ←
      match jDictGet flds (pyS "citation") with
      | some v => vOptStr v
      | none => pure none
    pure { framework := fw, snippet := sn, citation := ci }
  | _ => .error .validationError

/-- pydantic validation of a nested `PerSourceAnswer` object. -/
def vPerSourceAnswer : PyJson → Except PyExn PerSourceAnswer
  | .jobj flds => do
    let notes ←
      match jDictGet flds (pyS "notes") with
      | some v => vOptStr v
      | none => pure none
    let quotes ←
      match jDictGet flds (pyS "quotes") with
      | some (.jarr xs) => xs.mapM vQuote
      | some _ => .error .validationError
      | none => pure []
    pure { notes := notes, quotes := quotes }
  | _ => .error .validationError

/-- pydantic validation of the `Dict[RegSource, PerSourceAnswer]` field. -/
def vPerSource : PyJson → Except PyExn (List (RegSource × PerSourceAnswer))
  | .jobj flds =>
    flds.mapM (fun p => do
      let fw ← vRegSource (.jstr p.1)
      let ps ← vPerSourceAnswer p.2
      pure (fw, ps))
  | _ => .error .validationError

/-- Validate one optional field of the top-level dict with validator `v`. -/
def vField {α : Type} (flds : List (PyStr × PyJson)) (key : String)
    (v : PyJson → Except PyExn α) : Except PyExn (Option α) :=
  match jDictGet flds (pyS key) with
  | some j => do
    let x ← v j
    pure (some x)
  | none => pure none

/-- pydantic's processing of the parsed top-level dict for
`RegulAIteAnswer(**data)`: validate every declared field that is present
(raising `ValidationError` on a type mismatch), ignore unknown keys. -/
def kwargsOfJson (flds : List (PyStr × PyJson)) : Except PyExn AnswerKwargs := do
  let summary ← vField flds "summary" vStr
  let per_source ← vField flds "per_source" vPerSource
  let comparative_analysis ← vField flds "comparative_analysis" vStr
  let recommendation ← vField flds "recommendation" vStr
  let general_knowledge ← vField flds "general_knowledge" vStr
  let gaps_or_next_steps ← vField flds "gaps_or_next_steps" vStr
  let citations ← vField flds "citations" vStrList
  let ai_opinion ← vField flds "ai_opinion" vStr
  let follow_up_suggestions ← vField flds "follow_up_suggestions" vStrList
  let comparison_table_md ← vField flds "comparison_table_md" vOptStr
  pure { summary := summary
         per_source := per_source
         comparative_analysis := comparative_analysis
         recommendation := recommendation
         general_knowledge := general_knowledge
         gaps_or_next_steps := gaps_or_next_steps
         citations := citations
         ai_opinion := ai_opinion
         follow_up_suggestions := follow_up_suggestions
         comparison_table_md := comparison_table_md }

/-- C10: `RegulAIteAnswer` requires a `summary` value and declares no
`raw_markdown` field, so every construction that omits `summary` — in
particular every `RegulAIteAnswer(raw_markdown=…)` call in the pipeline —
fails validation and raises instead of producing an Answer. -/
theorem C10_construction_requires_summary (kw : AnswerKwargs)
    (h : kw.summary = none) :
    mkRegulAIteAnswer kw = .error .validationError := by
  simp [mkRegulAIteAnswer, h]

/-- C10 (witness): the pipeline's `RegulAIteAnswer(raw_markdown="not
found")` construction raises a `ValidationError`. -/
theorem C10_construction_requires_summary_witness :
    ({ raw_markdown := some (pyS "not found") } : AnswerKwargs).summary = none ∧
    mkRegulAIteAnswer { raw_markdown := some (pyS "not found") } =
      .error .validationError :=
  ⟨rfl, C10_construction_requires_summary
    { raw_markdown := some (pyS "not found") } rfl⟩

/-- The per-field unescape the pipeline applies to the parsed dict before
validation (`_call_llm`, lines 83–85): a present string value under the
key is replaced by its unescaped form; non-string values are unchanged
(`_unescape_field` returns non-strings as is). -/
def unescapeEntry (key : PyStr) (flds : List (PyStr × PyJson)) :
    List (PyStr × PyJson) :=
  flds.map (fun p =>
    if p.1 = key then
      (p.1, match p.2 with
            | .jstr s => .jstr (unescape_field s)
            | v => v)
    else p)

/-- The three unescape assignments of `_call_llm` (lines 83–85), applied
in source order: `raw_markdown`, `summary`, `comparison_table_md`. -/
def unescapeDataFields (flds : List (PyStr × PyJson)) :
    List (PyStr × PyJson) :=
  unescapeEntry (pyS "comparison_table_md")
    (unescapeEntry (pyS "summary") (unescapeEntry (pyS "raw_markdown") flds))

/-- A chat message. -/
structure Message where
  role : PyStr
  content : PyStr

/-- The completion endpoint: takes the model name, the output token
budget and the message list; returns the (possibly `None`) content text
or raises. -/
def LlmOracle := PyStr → Nat → List Message → Except PyExn (Option PyStr)

/-- `_call_llm` (pipeline.py lines 76–93): call the endpoint, parse the
text, unescape the three string fields, and validate.  On a
`ValidationError` the source *attempts* the recovery construction
`RegulAIteAnswer(raw_markdown=…)`, which itself raises a fresh
`ValidationError` (`summary` is required, `raw_markdown` undeclared), and
likewise in the unparsed-text branch; a non-string `raw_markdown` value
in the recovery read is modelled as the empty string — the construction
fails identically either way. -/
def call_llm (llm : LlmOracle) (model : PyStr) (max_out : Nat)
    (messages : List Message) : Except PyExn RegulAIteAnswer := do
  let content ← llm model max_out messages
  let text := pyOrOpt content []
  let data := parse_json text
  if !data.isEmpty then
    let data := unescapeDataFields data
    match (do
        let kw ← kwargsOfJson data
        mkRegulAIteAnswer kw : Except PyExn RegulAIteAnswer) with
    | .ok ans => pure ans
    | .error _ =>
      let md :=
        match jDictGet data (pyS "raw_markdown") with
        | some (.jstr s) => s
        | _ => []
      mkRegulAIteAnswer { raw_markdown := some (pyOrStr (unescape_field md) []) }
  else
    let md := pyStrip (strip_code_fences text)
    mkRegulAIteAnswer { raw_markdown := some (pyOrStr (unescape_field md) []) }

/-! ## Strict cite-only mode (pipeline.py lines 95–141) -/

/-- `_STRICT_KEYWORDS` (pipeline.py lines 96–99). -/
def STRICT_KEYWORDS : List PyStr :=
  [pyS "cite only", pyS "exact sentence", pyS "verbatim", pyS "quote verbatim",
   pyS "return only", pyS "cm-5.", pyS "ifrs 7", pyS "ifrs 9", pyS "fas 30",
   pyS "fas 33", pyS "§"]

/-- `_is_strict_citation` (pipeline.py lines 100–102). -/
def is_strict_citation (q : PyStr) : Bool :=
  STRICT_KEYWORDS.any (fun k => pyContains k (pyLower q))

/-- `_QUOTE_RE.findall`: non-overlapping, left-to-right matches of
`"[^"\n]{5,}"` — a quote, at least five characters none of which is a
quote or newline, a closing quote; on failure the scan advances one
character.  Structural on the fuel. -/
def findQuotes : Nat → PyStr → List PyStr
  | 0, _ => []
  | _ + 1, [] => []
  | fuel + 1, c :: rest =>
    if c = '"' then
      let run := rest.takeWhile (fun c2 => c2 ≠ '"' && c2 ≠ '\n')
      match rest.drop run.length with
      | '"' :: tail =>
        if 5 ≤ run.length then ('"' :: run ++ [('"' : Char)]) :: findQuotes fuel tail
        else findQuotes fuel rest
      | _ => findQuotes fuel rest
    else findQuotes fuel rest

/-- All matches of `_QUOTE_RE` in `s`. -/
def findQuotesAll (s : PyStr) : List PyStr := findQuotes (s.length + 1) s

/-- `\w` (ASCII): letter, digit or underscore. -/
def isWordChar (c : Char) : Bool :=
  ('a' ≤ c && c ≤ 'z') || ('A' ≤ c && c ≤ 'Z') || ('0' ≤ c && c ≤ '9') || c = '_'

/-- `\b` after a match ending in a digit/word character: the next
character must not be a word character (or the input ends). -/
def boundaryAfter (rest : PyStr) : Bool :=
  match rest with
  | [] => true
  | c :: _ => !isWordChar c

/-- `_REF_RE` alternative 1, `CM-\d+\.\d+(?:\.\d+)?` (case-insensitive),
anchored at the head of `s`; returns the matched length.  The optional
`\.\d+` group is tried greedily, falling back when the trailing `\b`
fails. -/
def refA1Len (s : PyStr) : Option Nat :=
  if pyLower (s.take 3) = pyS "cm-" then
    let s1 := s.drop 3
    let d1 := s1.takeWhile isDigitChar
    if d1.isEmpty then none
    else
      match s1.drop d1.length with
      | '.' :: s3 =>
        let d2 := s3.takeWhile isDigitChar
        if d2.isEmpty then none
        else
          let base := 3 + d1.length + 1 + d2.length
          let s4 := s3.drop d2.length
          let withOpt : Option Nat :=
            match s4 with
            | '.' :: s5 =>
              let d3 := s5.takeWhile isDigitChar
              if d3.isEmpty then none
              else if boundaryAfter (s5.drop d3.length) then
                some (base + 1 + d3.length)
              else none
            | _ => none
          match withOpt with
          | some n => some n
          | none => if boundaryAfter s4 then some base else none
      | _ => none
  else none

/-- `_REF_RE` alternative 2, `IFRS\s*\d+(?:\.\d+)?(?:\.\d+)?`
(case-insensitive), anchored at the head of `s`. -/
def refA2Len (s : PyStr) : Option Nat :=
  if pyLower (s.take 4) = pyS "ifrs" then
    let s1 := s.drop 4
    let w := s1.takeWhile isPySpace
    let s2 := s1.drop w.length
    let d1 := s2.takeWhile isDigitChar
    if d1.isEmpty then none
    else
      let base := 4 + w.length + d1.length
      let s3 := s2.drop d1.length
      let optDot : PyStr → Option (Nat × PyStr) := fun st =>
        match st with
        | '.' :: s4 =>
          let d := s4.takeWhile isDigitChar
          if d.isEmpty then none else some (1 + d.length, s4.drop d.length)
        | _ => none
      match optDot s3 with
      | some (n1, s4) =>
        (match optDot s4 with
         | some (n2, s5) =>
           if boundaryAfter s5 then some (base + n1 + n2)
           else if boundaryAfter s4 then some (base + n1)
           else if boundaryAfter s3 then some base
           else none
         | none =>
           if boundaryAfter s4 then some (base + n1)
           else if boundaryAfter s3 then some base
           else none)
      | none => if boundaryAfter s3 then some base else none
  else none

/-- `_REF_RE` alternative 3, `IFRS\s*7\.\d+\w*` (case-insensitive),
anchored at the head of `s`.  (The greedy `\w*` already ends at a
non-word character, so the trailing `\b` always holds.) -/
def refA3Len (s : PyStr) : Option Nat :=
  if pyLower (s.take 4) = pyS "ifrs" then
    let s1 := s.drop 4
    let w := s1.takeWhile isPySpace
    match s1.drop w.length with
    | '7' :: '.' :: s3 =>
      let d := s3.takeWhile isDigitChar
      if d.isEmpty then none
      else
        let ws := (s3.drop d.length).takeWhile isWordChar
        some (4 + w.length + 2 + d.length + ws.length)
    | _ => none
  else none

/-- `_REF_RE` alternative 4, `FAS\s*\d+\s*§\s*[\w\.-]+`
(case-insensitive), anchored at the head of `s`; the greedy character
class backtracks over trailing `.`/`-` until the final `\b` holds. -/
def refA4Len (s : PyStr) : Option Nat :=
  if pyLower (s.take 3) = pyS "fas" then
    let s1 := s.drop 3
    let w1 := s1.takeWhile isPySpace
    let s2 := s1.drop w1.length
    let d := s2.takeWhile isDigitChar
    if d.isEmpty then none
    else
      let s3 := s2.drop d.length
      let w2 := s3.takeWhile isPySpace
      match s3.drop w2.length with
      | '§' :: s5 =>
        let w3 := s5.takeWhile isPySpace
        let s6 := s5.drop w3.length
        let run := s6.takeWhile (fun c => isWordChar c || c = '.' || c = '-')
        let trimmed := pyDropEndWhile (fun c => c = '.' || c = '-') run
        if trimmed.isEmpty then none
        else some (3 + w1.length + d.length + w2.length + 1 + w3.length +
          trimmed.length)
      | _ => none
  else none

/-- One attempt of `_REF_RE` at the head of `s`: the four alternatives in
pattern order; returns the matched text and the rest. -/
def refAt (s : PyStr) : Option (PyStr × PyStr) :=
  match refA1Len s with
  | some n => some (s.take n, s.drop n)
  | none =>
    match refA2Len s with
    | some n => some (s.take n, s.drop n)
    | none =>
      match refA3Len s with
      | some n => some (s.take n, s.drop n)
      | none =>
        match refA4Len s with
        | some n => some (s.take n, s.drop n)
        | none => none

/-- Whether a match's last character is a word character (for the
boundary state after a match). -/
def lastIsWord (m : PyStr) : Bool :=
  match m.reverse with
  | c :: _ => isWordChar c
  | [] => false

/-- `_REF_RE.findall`: scan left to right; a match may start only at a
word boundary (previous character not a word character); scanning resumes
after each match.  Structural on the fuel. -/
def findRefs : Nat → Bool → PyStr → List PyStr
  | 0, _, _ => []
  | _ + 1, _, [] => []
  | fuel + 1, prevW, c :: rest =>
    if !prevW then
      match refAt (c :: rest) with
      | some (m, r) => m :: findRefs fuel (lastIsWord m) r
      | none => findRefs fuel (isWordChar c) rest
    else findRefs fuel (isWordChar c) rest

/-- All matches of `_REF_RE` in `s` (the start of input is a non-word
position). -/
def findRefsAll (s : PyStr) : List PyStr := findRefs (s.length + 1) false s

/-- Reading `ans.raw_markdown` on a `RegulAIteAnswer`: the model declares
no such field, so pydantic raises `AttributeError` — for every Answer. -/
def getRawMarkdown (_ : RegulAIteAnswer) : Except PyExn PyStr :=
  .error (.attributeError (pyS "raw_markdown"))

/-- Python `"\n\n".join` and friends. -/
def pyJoin (sep : PyStr) (parts : List PyStr) : PyStr :=
  match parts with
  | [] => []
  | p :: rest => rest.foldl (fun acc q => acc ++ sep ++ q) p

/-- `_reduce_to_quotes_only` (pipeline.py lines 116–141): keep only the
literal quotes and references of `ans.raw_markdown` — but the very first
step reads `ans.raw_markdown`, a field `RegulAIteAnswer` does not
declare, and the `not found` / quote-list constructions pass only
`raw_markdown`, so they fail validation as well. -/
def reduce_to_quotes_only (ans : RegulAIteAnswer) :
    Except PyExn RegulAIteAnswer := do
  let rm ← getRawMarkdown ans
  let body := pyStrip (pyOrStr rm [])
  let quotes := findQuotesAll body
  let refs := findRefsAll body
  if quotes.isEmpty then
    mkRegulAIteAnswer { raw_markdown := some (pyS "not found") }
  else
    let lines :=
      if !refs.isEmpty then
        (quotes.zip refs).map
          (fun p => pyStrip p.1 ++ pyS "  \n— " ++ pyStrip p.2) ++
        (quotes.drop refs.length).map pyStrip
      else quotes.map pyStrip
    mkRegulAIteAnswer { raw_markdown := some (pyJoin (pyS "\n\n") lines) }

/-! ## The orchestrator `ask` (pipeline.py lines 144–255) -/

/-- `_weak` (pipeline.py lines 60–65): an answer is weak when its body is
short, says "not found" on a rulebook-ish query, or has no per-source
evidence.  Its first step reads `ans.raw_markdown`, which the schema does
not declare. -/
def weak (ans : RegulAIteAnswer) (query : PyStr) : Except PyExn Bool := do
  let rm ← getRawMarkdown ans
  let md := pyLower (pyOrStr rm [])
  let too_short := md.length < 400
  let says_not_found := pyContains (pyS "not found") md &&
    ([pyS "cbb", pyS "rulebook", pyS "cm-5"].any
      (fun k => pyContains k (pyLower query)))
  let no_evidence := ans.per_source.isEmpty
  pure (too_short || says_not_found || no_evidence)

/-- `_doc_only_from_query` (pipeline.py lines 67–69). -/
def doc_only_from_query (q : PyStr) : Bool :=
  let ql := pyLower q
  pyContains (pyS "cite only") ql ||
  (pyContains (pyS "cbb rulebook") ql && !pyContains (pyS "bis") ql &&
   !pyContains (pyS "basel") ql && !pyContains (pyS "web") ql)

/-- `_needs_web_bias` (pipeline.py lines 71–74). -/
def needs_web_bias (q : PyStr) : Bool :=
  let ql := pyLower q
  pyContains (pyS "bis.org") ql || pyContains (pyS " bcbs") ql ||
  (pyContains (pyS "bis ") ql && pyContains (pyS "url") ql)

/-- A conversation turn (`{"role": …, "content": …}` with optional keys,
as probed by `h.get(...)`). -/
structure Turn where
  role : Option PyStr := none
  content : Option PyStr := none

/-- `_history_to_brief` (pipeline.py lines 16–24): the last
`max_pairs * 2` turns, each rendered as `User: `/`Assistant: ` plus the
first 700 characters of its stripped content, empty turns skipped, joined
with newlines; empty history gives the empty string. -/
def history_to_brief (history : List Turn) (max_pairs : Nat) : PyStr :=
  if history.isEmpty then []
  else
    let turns := history.drop (history.length - max_pairs * 2)
    let lines := turns.filterMap (fun h =>
      let content := pyStrip (pyOrOpt h.content [])
      if content.isEmpty then none
      else some ((if h.role = some (pyS "user") then pyS "User: "
                  else pyS "Assistant: ") ++ content.take 700))
    joinNL lines

/-- Modelled from the spec: `normalize_mode`.  The pipeline imports it
from `.router`, but neither `src/router.py` nor `src/rag/router.py`
defines it — the function is missing from the repository sources.  Spec
§4.1: `resolve(mode_hint) -> Mode` is a pure total function over a small
fixed vocabulary and unrecognized or absent hints map deterministically
to a default Mode; the pipeline's own default hint is `"long"`, which we
take as that default. -/
def normalize_mode (mode_hint : Option PyStr) : PyStr :=
  match mode_hint with
  | some h =>
    if h = pyS "short" || h = pyS "long" || h = pyS "research" then h
    else pyS "long"
  | none => pyS "long"

/-- Modelled from the spec: `build_system_instruction`.  The pipeline
imports it from `.agents`, but `src/rag/agents.py` does not define it —
the function is missing from the repository sources.  Spec §4.2: a pure
composition of persona, output-shape, length and evidence directives with
no side effects and no failure; the exact wording is business copy the
spec leaves open, and no claim depends on it. -/
def build_system_instruction (k_hint : Nat) (evidence_mode : Bool)
    (mode : PyStr) : PyStr :=
  pyS "You are RegulAIte, a regulatory assistant. Mode: " ++ mode ++
  (if evidence_mode then
    pyS ". Provide 2-5 short verbatim quotes per addressed source"
   else []) ++
  pyS ". Use up to " ++ pyS (toString k_hint) ++ pyS " retrieved passages."

/-- The strict-mode output-shape directive (pipeline.py lines 168–174). -/
def STRICT_SCHEMA_MSG : PyStr :=
  pyS "Return ONE JSON object ONLY with key raw_markdown (string). In raw_markdown return ONLY literal quoted sentence(s) and precise reference(s) (e.g., \"…\" — CM-5.2.x / IFRS 7.35F / FAS 33 §4.2). If exact quote in the requested chapter/standard is not found, return exactly: not found. No summaries, no explanations, no extra text outside JSON."

/-- The normal output-shape directive (pipeline.py lines 176–182). -/
def NORMAL_SCHEMA_MSG : PyStr :=
  pyS "Return ONE JSON object ONLY with keys: raw_markdown (string), summary (string), per_source (object), comparison_table_md (string, optional), follow_up_suggestions (array of strings). IMPORTANT: Use REAL newlines in raw_markdown and comparison_table_md; do NOT escape them as \\n. No prose outside JSON."

/-- The keyword list of the helper-sections gate (pipeline.py lines
234–237); note `"quote"` here versus `"quote verbatim"` in
`_STRICT_KEYWORDS`. -/
def CITATION_LIKE_KEYWORDS : List PyStr :=
  [pyS "cite only", pyS "exact sentence", pyS "verbatim", pyS "quote",
   pyS "return only", pyS "cm-5.", pyS "ifrs 7", pyS "ifrs 9", pyS "fas 30",
   pyS "fas 33", pyS "§"]

/-- The text appended by the helper-sections step (pipeline.py lines
243–253) to a long narrative. -/
def HELPER_SECTIONS_TEXT : PyStr :=
  pyS "\n\n### Approval Workflow\nCredit → Risk → Shari’ah Supervisory Board (if applicable) → Board → CBB notification\n\n### Reporting Matrix\n| Owner | Item | Frequency |\n|---|---|---|\n| Risk | Large exposure register | Monthly |\n| Compliance | CBB submissions | Quarterly |\n| Board | Connected exposure approvals | Ongoing |\n"

/-- String rendering of an exception, as interpolated by the `f"### Error…"`
handler. -/
def exnText : PyExn → PyStr
  | .validationError => pyS "ValidationError"
  | .attributeError f => pyS "AttributeError: " ++ f
  | .valueError f => pyS "ValueError: " ++ f
  | .endpoint m => m

/-- `ask` (pipeline.py lines 144–255).  The completion endpoint and the
web-search provider are oracles; `chat_model_env` stands for the
`CHAT_MODEL`/`RESPONSES_MODEL`/`"gpt-4o-mini"` environment fallback chain.
The source's own behaviour is kept faithfully, including every place it
touches the `raw_markdown` attribute that `RegulAIteAnswer` does not
declare:
* the pass-1 `except` handler rebuilds an Answer with only `raw_markdown`
  (a construction that itself raises `ValidationError`);
* `_weak`, the pass-2 `ans2.raw_markdown` check, `_reduce_to_quotes_only`
  and the safety-net check all read the missing attribute
  (`AttributeError`);
* the helper-sections step reads it through
  `getattr(ans, "raw_markdown", "")`, which yields `""` (so the
  long-narrative branch is unreachable, and its `ans.raw_markdown = …`
  assignment — a `ValueError` on a pydantic model — is kept as dead
  code). -/
def ask (llm : LlmOracle) (web : WebOracle) (query : PyStr)
    (history : List Turn) (k_hint : Nat) (evidence_mode : Bool)
    (mode_hint : Option PyStr) (web_enabled : Bool)
    (chat_model_env : PyStr) (model_arg : Option PyStr) :
    Except PyExn RegulAIteAnswer :=
  let mode := normalize_mode mode_hint
  let convo_brief := history_to_brief history 8
  let max_out := mode_tokens mode
  let chat_model := pyStrip (pyOrOpt model_arg chat_model_env)
  let sys_inst := build_system_instruction k_hint evidence_mode mode
  let strict := is_strict_citation query
  let force_web := needs_web_bias query
  let schema_msg := if strict then STRICT_SCHEMA_MSG else NORMAL_SCHEMA_MSG
  let messages : List Message :=
    [⟨pyS "system", sys_inst⟩, ⟨pyS "system", STYLE_GUIDE⟩,
     ⟨pyS "system", FEW_SHOT_EXAMPLE⟩, ⟨pyS "system", schema_msg⟩,
     ⟨pyS "user", pyS "Conversation so far (brief):\n" ++ convo_brief⟩,
     ⟨pyS "user", query⟩]
  match call_llm llm chat_model max_out messages with
  | .error e =>
    mkRegulAIteAnswer
      { raw_markdown :=
          some (pyS "### Error\nModel call failed.\n\nDetails: " ++ exnText e) }
  | .ok ans1 => do
    let allow_web := web_enabled && !doc_only_from_query query
    let should_try_web ←
      if allow_web && !strict then do
        let w ← weak ans1 query
        pure (w || force_web)
      else pure false
    let ans ←
      if should_try_web then do
        let results := ddg_search web query (max 8 k_hint)
        if !results.isEmpty then do
          let lines :=
            [pyS "Web snippets (use prudently; internal docs take precedence):"]
            ++ results.enum.map (fun p =>
              pyS (toString (p.1 + 1)) ++ pyS ". " ++ p.2.title ++ pyS " — " ++
              p.2.url ++ pyS "\n   Snippet: " ++ p.2.snippet.take 400)
          let web_context := joinNL lines
          let messages2 : List Message :=
            [⟨pyS "system", sys_inst⟩, ⟨pyS "system", STYLE_GUIDE⟩,
             ⟨pyS "system", FEW_SHOT_EXAMPLE⟩, ⟨pyS "system", schema_msg⟩,
             ⟨pyS "user", pyS "Conversation so far (brief):\n" ++ convo_brief⟩,
             ⟨pyS "user",
               pyS "Use this web context ONLY if internal sources were insufficient:\n"
               ++ web_context⟩,
             ⟨pyS "user", query⟩]
          let ans2 ← call_llm llm chat_model max_out messages2
          let md2 ← getRawMarkdown ans2
          pure (if !(pyStrip (pyOrStr md2 [])).isEmpty then ans2 else ans1)
        else pure ans1
      else pure ans1
    let ans ← if strict then reduce_to_quotes_only ans else pure ans
    let md ← getRawMarkdown ans
    if (pyStrip (pyOrStr md [])).isEmpty && (pyStrip ans.summary).isEmpty then
      pure DEFAULT_EMPTY
    else
      let q_l := pyLower query
      let is_citation_like := CITATION_LIKE_KEYWORDS.any (fun k => pyContains k q_l)
      let raw_md : PyStr := []
      let is_long_narrative := 500 ≤ raw_md.length
      if !strict && !is_citation_like && is_long_narrative then
        if !pyContains (pyS "Approval Workflow") raw_md &&
           !pyContains (pyS "Reporting Matrix") raw_md then
          .error (.valueError (pyS "raw_markdown"))
        else pure ans
      else pure ans

/-! ## Claims about `ask` (C1, C3, C5) -/

/-- A completion endpoint whose call raises a transport error. -/
def failingLlm : LlmOracle := fun _ _ _ => .error (.endpoint (pyS "connection reset"))

/-- A completion endpoint that answers with a well-formed JSON object
carrying a valid `summary` (and nothing else). -/
def goodLlm : LlmOracle := fun _ _ _ =>
  .ok (some (pyS "\x7b\"summary\": \"All good here, thanks.\"\x7d"))

/-- A completion endpoint for the strict-citation scenario: valid JSON, a
valid `summary`, and a body containing no double-quoted span. -/
def strictLlm : LlmOracle := fun _ _ _ =>
  .ok (some (pyS "\x7b\"summary\": \"See CM-5.2.1 for details.\"\x7d"))

/-- A web-search provider with no results. -/
def noWeb : WebOracle := fun _ _ => .ok []

/-- `_weak` raises on every Answer: its first step reads the undeclared
`raw_markdown` attribute. -/
theorem weak_raises (a : RegulAIteAnswer) (q : PyStr) :
    weak a q = .error (.attributeError (pyS "raw_markdown")) := rfl

/-- `_reduce_to_quotes_only` raises on every Answer: its first step reads
the undeclared `raw_markdown` attribute. -/
theorem reduce_to_quotes_only_raises (a : RegulAIteAnswer) :
    reduce_to_quotes_only a = .error (.attributeError (pyS "raw_markdown")) := rfl

/-- C1: `ask` does **not** convert every exception into a returned
Answer.  When the first completion call raises a transport error, the
`except` handler's own recovery construction
`RegulAIteAnswer(raw_markdown=…)` raises a `ValidationError` (`summary`
is required and `raw_markdown` is not a declared field), which propagates
past `ask` to the caller. -/
theorem C1_ask_raises_on_endpoint_failure :
    ask failingLlm noWeb (pyS "What are the CBB large exposure limits?") [] 12
      true (some (pyS "long")) true (pyS "gpt-4o-mini") none =
    .error .validationError := rfl

/-- C3: for the strict-citation query `"Cite only the exact sentence from
CM-5.2."` and a model response whose body contains no quoted span, the
post-processing does **not** produce an Answer whose narrative is
`"not found"`: `_reduce_to_quotes_only` first reads the undeclared
`raw_markdown` attribute, so `ask` raises an `AttributeError` — and the
`"not found"` construction it would have built fails validation as well. -/
theorem C3_strict_no_quotes_raises :
    is_strict_citation (pyS "Cite only the exact sentence from CM-5.2.") = true ∧
    findQuotesAll (pyS "See CM-5.2.1 for details.") = [] ∧
    ask strictLlm noWeb (pyS "Cite only the exact sentence from CM-5.2.") [] 12
      true (some (pyS "long")) true (pyS "gpt-4o-mini") none =
      .error (.attributeError (pyS "raw_markdown")) ∧
    mkRegulAIteAnswer { raw_markdown := some (pyS "not found") } =
      .error .validationError :=
  ⟨rfl, rfl, rfl, rfl⟩

/-- C5 (counterexample): for the concrete non-strict query
`"hello there friend"` (narrative intent) with a completion endpoint that
returns a fully valid structured response, `ask` returns **no** Answer at
all — it raises an `AttributeError` at the safety-net read of the
undeclared `raw_markdown` attribute — so the returned narrative cannot
equal the normalizer's narrative. -/
theorem C5_nonstrict_cex :
    is_strict_citation (pyS "hello there friend") = false ∧
    ask goodLlm noWeb (pyS "hello there friend") [] 12 true (some (pyS "long"))
      false (pyS "gpt-4o-mini") none =
    .error (.attributeError (pyS "raw_markdown")) :=
  ⟨rfl, rfl⟩

/-- C5 (amended): for every input — non-strict or strict, whatever the
endpoint and provider oracles do — `ask` never returns an Answer: every
path raises.  A failing first completion call ends in the handler's
invalid reconstruction (`ValidationError`); a successful one reaches a
read of the undeclared `raw_markdown` attribute in `_weak`, in
`_reduce_to_quotes_only`, or at the safety-net check (`AttributeError`).
Hence no narrative-preservation of the normalizer's output is observable
for narrative/scenario intents. -/
theorem C5_ask_never_returns (llm : LlmOracle) (web : WebOracle)
    (query : PyStr) (history : List Turn) (k_hint : Nat)
    (evidence_mode : Bool) (mode_hint : Option PyStr) (web_enabled : Bool)
    (chat_model_env : PyStr) (model_arg : Option PyStr) :
    (ask llm web query history k_hint evidence_mode mode_hint web_enabled
      chat_model_env model_arg).isOk = false := by
  simp only [ask]
  split
  · simp [mkRegulAIteAnswer, Except.isOk, Except.toBool]
  · simp only [weak_raises, reduce_to_quotes_only_raises, getRawMarkdown, bind,
      Except.bind, pure, Except.pure]
    repeat' split
    all_goals rfl
